import Mathlib

/-!
Shallow embedding of dfioravanti/zero2prod: configuration, the subscription
route, and the integration-test database provisioning/teardown harness.

Sources embedded:
- src/src/configuration.rs   (DatabaseSettings and its connection strings)
- src/src/routes/subscriptions.rs (FormData, subscribe)
- src/src/main.rs            (call site of run)
- src/tests/health_checks.rs (spawn_app, configure_database, clean_up, tests)

The startup and telemetry modules of the repository are referenced by the
files above but are not present under src/; the parts of their behaviour
that claims depend on are modelled from the spec and marked as such.
Stateful async code is embedded as straight-line functions that return the
ordered trace of database operations they await, together with their result.
-/

namespace Zero2Prod

/-! ## Configuration (src/src/configuration.rs) -/

/-- DatabaseSettings from src/src/configuration.rs. The Rust port field is a
u16; its numeric value is all the connection strings use, so it is a Nat. -/
structure DatabaseSettings where
  username : String
  password : String
  port : Nat
  host : String
  database_name : String
deriving DecidableEq

/-- Rust: format!("postgres://{u}:{pw}@{h}:{port}/{db}") on the fields of
the settings value, from DatabaseSettings::get_connection_string. -/
def get_connection_string (s : DatabaseSettings) : String :=
  "postgres://" ++ s.username ++ ":" ++ s.password ++ "@" ++ s.host ++ ":"
    ++ toString s.port ++ "/" ++ s.database_name

/-- Rust: format!("postgres://{u}:{pw}@{h}:{port}"), from
DatabaseSettings::get_connection_string_default_db. -/
def get_connection_string_default_db (s : DatabaseSettings) : String :=
  "postgres://" ++ s.username ++ ":" ++ s.password ++ "@" ++ s.host ++ ":"
    ++ toString s.port

/-- Setting from src/src/configuration.rs. -/
structure Setting where
  database : DatabaseSettings
  application_port : Nat
deriving DecidableEq

/-! ## Subscription route (src/src/routes/subscriptions.rs)

The handler body is in src/. The surrounding form-urlencoded extraction is
framework code that the spec keeps out of scope and specifies only through
its interface ("accepts form-encoded body with fields name, email (both
required strings); on missing/malformed field responds 400"), so the
extractor below is modelled from that interface: pairs split on the
ampersand, each pair split at the first equals sign, percent- and
plus-decoding, and exactly one occurrence of each required field. -/

/-- FormData from src/src/routes/subscriptions.rs: two required String
fields, name and email. -/
structure FormData where
  name : String
  email : String
deriving DecidableEq

/-- A persisted subscriber row (the subscriptions table of the spec). -/
structure Subscriber where
  name : String
  email : String
deriving DecidableEq

/-- The visible database state: the rows of the subscriptions table. -/
structure DbState where
  subscriptions : List Subscriber
deriving DecidableEq

/-- An HTTP response: status code and body. Content-Length is body.length. -/
structure HttpResponse where
  status : Nat
  body : String
deriving DecidableEq

/-- Modelled from the spec: split a byte list on a separator character, the
way the urlencoded body is split on the ampersand. -/
def splitOnChar (sep : Char) : List Char → List (List Char)
  | [] => [[]]
  | c :: cs =>
    let rest := splitOnChar sep cs
    if c = sep then [] :: rest
    else
      match rest with
      | [] => [[c]]
      | r :: rs => (c :: r) :: rs

/-- Modelled from the spec: split one key=value pair at the first equals
sign; a pair with no equals sign is a key with an empty value. -/
def splitPair : List Char → List Char × List Char
  | [] => ([], [])
  | '=' :: rest => ([], rest)
  | c :: rest =>
    let kv := splitPair rest
    (c :: kv.1, kv.2)

/-- Value of a hexadecimal digit character, if it is one. -/
def hexDigit (c : Char) : Option Nat :=
  if '0' ≤ c ∧ c ≤ '9' then some (c.toNat - '0'.toNat)
  else if 'a' ≤ c ∧ c ≤ 'f' then some (c.toNat - 'a'.toNat + 10)
  else if 'A' ≤ c ∧ c ≤ 'F' then some (c.toNat - 'A'.toNat + 10)
  else none

/-- Modelled from the spec: percent-decoding of urlencoded text; a plus
decodes to a space, a malformed percent escape makes the body malformed. -/
def percentDecode : List Char → Option (List Char)
  | [] => some []
  | '%' :: rest =>
    match rest with
    | a :: b :: rest2 =>
      match hexDigit a, hexDigit b with
      | some ha, some hb =>
        (percentDecode rest2).map (fun d => Char.ofNat (16 * ha + hb) :: d)
      | _, _ => none
    | _ => none
  | '+' :: rest => (percentDecode rest).map (fun d => ' ' :: d)
  | c :: rest => (percentDecode rest).map (fun d => c :: d)

/-- Modelled from the spec: parse a form-urlencoded body into its decoded
key/value pairs; the empty body has no pairs. -/
def parsePairs (body : List Char) : Option (List (String × String)) :=
  if body = [] then some []
  else
    (splitOnChar '&' body).mapM fun kv =>
      let p := splitPair kv
      match percentDecode p.1, percentDecode p.2 with
      | some kd, some vd => some (String.mk kd, String.mk vd)
      | _, _ => none

/-- Modelled from the spec: the value of a required field that must occur
exactly once among the decoded pairs. -/
def fieldOnce (pairs : List (String × String)) (key : String) :
    Option String :=
  match (pairs.filter (fun p => p.1 == key)).map Prod.snd with
  | [v] => some v
  | _ => none

/-- Modelled from the spec: deserialize the pairs into FormData; both
fields are required and each must occur exactly once, extra keys are
ignored, and any failure is a request validation error. -/
def parseFormData (body : String) : Option FormData :=
  match parsePairs body.data with
  | none => none
  | some pairs =>
    match fieldOnce pairs "name", fieldOnce pairs "email" with
    | some n, some e => some ⟨n, e⟩
    | _, _ => none

/-- True when a parseable body carries the given key at least once. -/
def hasField (body : String) (key : String) : Bool :=
  match parsePairs body.data with
  | none => false
  | some pairs => pairs.any (fun p => p.1 == key)

/-- subscribe from src/src/routes/subscriptions.rs: the handler body is
HttpResponse::Ok().finish() — status 200, empty body — and it touches no
database state, embedded here with the state passed through unchanged. -/
def subscribe (_form : FormData) (db : DbState) : HttpResponse × DbState :=
  (⟨200, ""⟩, db)

/-- Modelled from the spec: the handler boundary for POST /subscriptions.
A request validation error (extraction failure) is recovered here and
translated to a 400 response; it never propagates further — the function
is total and always yields a response. On success the subscribe handler
from src/ runs. -/
def handlePostSubscriptions (body : String) (db : DbState) :
    HttpResponse × DbState :=
  match parseFormData body with
  | some f => subscribe f db
  | none => (⟨400, ""⟩, db)

/-- The state of the connection pool as seen by a handler. -/
structure PoolState where
  closed : Bool
deriving DecidableEq

/-- Modelled from the spec: the GET /health_check handler, which lives in
the route/startup modules of the repository that are not present under
src/. Per the spec it always responds 200 with an empty body, regardless
of pool state. -/
def health_check (_pool : PoolState) : HttpResponse :=
  ⟨200, ""⟩

/-- Modelled from the spec: the route table wired by run (startup module,
not under src/): GET /health_check and POST /subscriptions. -/
def route (method path body : String) (pool : PoolState) (db : DbState) :
    HttpResponse × DbState :=
  if method == "GET" && path == "/health_check" then (health_check pool, db)
  else if method == "POST" && path == "/subscriptions" then
    handlePostSubscriptions body db
  else (⟨404, ""⟩, db)

/-! ## Handler and bootstrap signatures

src/src/routes/subscriptions.rs line 9 declares
pub async fn subscribe(_form: web::Form<FormData>) -> HttpResponse,
and run is called as run(listener, connection_pool) in src/src/main.rs and
as run(listener, connection_pool.clone()) in src/tests/health_checks.rs. -/

/-- The extractor kinds a route handler can take as parameters. -/
inductive HandlerParam where
  | formExtractor : HandlerParam
  | poolExtractor : HandlerParam
deriving DecidableEq

/-- Parameter list of subscribe, transcribed from its signature in
src/src/routes/subscriptions.rs: only the web.Form extractor. -/
def subscribeParams : List HandlerParam := [HandlerParam.formExtractor]

/-- The argument kinds the bootstrap run receives. -/
inductive RunArg where
  | listener : RunArg
  | pool : RunArg
deriving DecidableEq

/-- Argument list of the bootstrap run at both call sites
(src/src/main.rs and src/tests/health_checks.rs). -/
def runArgs : List RunArg := [RunArg.listener, RunArg.pool]

/-! ## Test database provisioning and teardown (src/tests/health_checks.rs)

configure_database, spawn_app, clean_up and the test bodies are
straight-line async functions: every database operation is awaited before
the next statement runs. They are embedded as functions returning the
ordered trace of database operations they perform. -/

/-- One awaited database operation of the test harness. -/
inductive DbEvent where
  | connect : String → DbEvent
  | execStmt : String → DbEvent
  | connectPool : String → DbEvent
  | runMigration : Nat → DbEvent
  | poolReady : DbEvent
  | poolClose : DbEvent
deriving DecidableEq

/-- The SQL issued by configure_database: CREATE DATABASE "name"; . -/
def createDbStmt (name : String) : String :=
  "CREATE DATABASE \"" ++ name ++ "\";"

/-- The SQL issued by clean_up: DROP DATABASE "name"; . -/
def dropDbStmt (name : String) : String :=
  "DROP DATABASE \"" ++ name ++ "\";"

/-- A connection pool handle, remembering which database it is bound to. -/
structure Pool where
  database_name : String
deriving DecidableEq

/-- configure_database from src/tests/health_checks.rs: connect with the
default-database connection string, execute CREATE DATABASE, open a pool
with the full connection string, run every migration in order, and only
then return the pool (the poolReady marker is the return point). The
migrations directory is not part of src/, so the version-ordered migration
list is a parameter. -/
def configure_database (config : DatabaseSettings) (migs : List Nat) :
    List DbEvent × Pool :=
  ([DbEvent.connect (get_connection_string_default_db config),
    DbEvent.execStmt (createDbStmt config.database_name),
    DbEvent.connectPool (get_connection_string config)]
     ++ migs.map DbEvent.runMigration ++ [DbEvent.poolReady],
   ⟨config.database_name⟩)

/-- TestApp from src/tests/health_checks.rs. -/
structure TestApp where
  address : String
  db_config : DatabaseSettings
  db_pool : Pool

/-- spawn_app from src/tests/health_checks.rs: overwrite database_name of
the loaded configuration with the freshly generated token before any
database operation, provision through configure_database, bind a random
port and spawn the server. fresh abstracts Uuid::new_v4().to_string() and
port the randomly bound port; neither is derivable in the embedding. -/
def spawn_app (base : Setting) (fresh : String) (migs : List Nat)
    (port : Nat) : List DbEvent × TestApp :=
  let dbcfg : DatabaseSettings :=
    ⟨base.database.username, base.database.password, base.database.port,
     base.database.host, fresh⟩
  let conf := configure_database dbcfg migs
  (conf.1,
   { address := "http://127.0.0.1:" ++ toString port,
     db_config := dbcfg,
     db_pool := conf.2 })

/-- clean_up from src/tests/health_checks.rs: close the pool, connect with
the default-database connection string of the stored db_config, and
execute DROP DATABASE for its database_name. -/
def clean_up (app : TestApp) : List DbEvent :=
  [DbEvent.poolClose,
   DbEvent.connect (get_connection_string_default_db app.db_config),
   DbEvent.execStmt (dropDbStmt app.db_config.database_name)]

/-- The response a test receives from the spawned server, as reqwest
exposes it to the assertions. -/
structure ClientResponse where
  status : Nat
  content_length : Option Nat
deriving DecidableEq

/-- reqwest StatusCode::is_success: 2xx. -/
def statusIsSuccess (s : Nat) : Bool :=
  decide (200 ≤ s) && decide (s < 300)

/-- health_check_works from src/tests/health_checks.rs: spawn the app, GET
/health_check, assert the status is a success and the content length is
zero, then clean_up. A failed assertion panics and aborts the test body at
that statement, so clean_up is reached only when both assertions hold.
resp is the response the test receives from the concurrently spawned
server. -/
def health_check_works (base : Setting) (fresh : String) (migs : List Nat)
    (port : Nat) (resp : ClientResponse) : List DbEvent :=
  let spawned := spawn_app base fresh migs port
  if statusIsSuccess resp.status && (resp.content_length == some 0) then
    spawned.1 ++ clean_up spawned.2
  else
    spawned.1

/-! ## One-time diagnostics initialization (src/tests/health_checks.rs)

The lazy_static TRACING cell guarantees the guarded block runs at most
once process-wide; its check-and-set is atomic, so any concurrent set of
callers is equivalent to some serial order of calls, which is what the
model quantifies over. -/

/-- The SQL statement an execStmt event carries, when it is one. -/
def stmtOf : DbEvent → Option String
  | DbEvent.execStmt s => some s
  | _ => none

/-- The SQL statements executed in a trace, in order. -/
def stmtsExecuted (tr : List DbEvent) : List String :=
  tr.filterMap stmtOf

/-- A sample loaded configuration, used to exercise the harness model on
concrete inputs. -/
def sampleSetting : Setting :=
  ⟨⟨"postgres", "password", 5432, "127.0.0.1", "newsletter"⟩, 8000⟩

/-- The process-wide tracing cell: whether it is set, and how many times
the guarded setup block has run. -/
structure TracingState where
  ready : Bool
  setupRuns : Nat
deriving DecidableEq

/-- One caller reaching lazy_static TRACING: the first caller runs
the setup block and sets the cell, every later caller sees the set cell
and does nothing. -/
def tracingInit (s : TracingState) : TracingState :=
  if s.ready then s else { ready := true, setupRuns := s.setupRuns + 1 }

/-- n serialized callers hitting the cell in turn. -/
def runTracingInits (n : Nat) (s : TracingState) : TracingState :=
  match n with
  | 0 => s
  | m + 1 => runTracingInits m (tracingInit s)

end Zero2Prod

namespace Zero2Prod

/-! ## Claim C6 -/

/-- C6: for every DatabaseSettings value, get_connection_string returns
"postgres://{username}:{password}@{host}:{port}/{database_name}", and
get_connection_string_default_db returns the same descriptor without the
trailing "/{database_name}" database selector. -/
theorem connection_strings_spec (s : DatabaseSettings) :
    get_connection_string s =
      "postgres://" ++ s.username ++ ":" ++ s.password ++ "@" ++ s.host
        ++ ":" ++ toString s.port ++ "/" ++ s.database_name
    ∧ get_connection_string s =
        get_connection_string_default_db s ++ "/" ++ s.database_name :=
  ⟨rfl, rfl⟩

end Zero2Prod

namespace Zero2Prod

/-! ## Helper lemmas -/

lemma string_data_inj (a b : String) (h : a.data = b.data) : a = b := by
  cases a
  cases b
  exact congrArg String.mk h

lemma createDbStmt_inj (a b : String) (h : createDbStmt a = createDbStmt b) :
    a = b := by
  have h2 := congrArg String.data h
  simp only [createDbStmt, String.data_append] at h2
  exact string_data_inj a b
    (List.append_cancel_left (List.append_cancel_right h2))

lemma stmtsExecuted_migrations (migs : List Nat) :
    List.filterMap stmtOf (migs.map DbEvent.runMigration) = [] := by
  induction migs with
  | nil => rfl
  | cons v vs ih => simp [List.filterMap_cons, stmtOf, ih]

lemma poolClose_not_in_migrations (migs : List Nat) :
    DbEvent.poolClose ∉ migs.map DbEvent.runMigration := by
  simp

/-! ## Claim C2 -/

/-- C2: within one provisioning run of configure_database the steps are
strictly sequential: the connection built from the default-database
connection string comes first, the database-creation statement is executed
next (so it completes before any migration), every migration runs at a
strictly later position, all migrations precede the point where the pool
is returned, and the returned handle is the pool bound to the new
database. -/
theorem provisioning_steps_sequential (cfg : DatabaseSettings)
    (migs : List Nat) :
    ((configure_database cfg migs).1.get? 0 =
        some (DbEvent.connect (get_connection_string_default_db cfg))) ∧
    ((configure_database cfg migs).1.get? 1 =
        some (DbEvent.execStmt (createDbStmt cfg.database_name))) ∧
    (∀ j v, (configure_database cfg migs).1.get? j =
        some (DbEvent.runMigration v) → 2 < j) ∧
    (∃ front, (configure_database cfg migs).1 = front ++ [DbEvent.poolReady] ∧
      DbEvent.poolReady ∉ front ∧
      ∀ v, DbEvent.runMigration v ∈ (configure_database cfg migs).1 →
        DbEvent.runMigration v ∈ front) ∧
    (configure_database cfg migs).2 = ⟨cfg.database_name⟩ := by
  refine ⟨rfl, rfl, ?_, ?_, rfl⟩
  · intro j v h
    by_contra hle
    push_neg at hle
    interval_cases j <;>
      simp [configure_database, List.get?_cons_zero,
        List.get?_cons_succ, List.cons_append, List.nil_append] at h
  · refine ⟨[DbEvent.connect (get_connection_string_default_db cfg),
        DbEvent.execStmt (createDbStmt cfg.database_name),
        DbEvent.connectPool (get_connection_string cfg)]
          ++ migs.map DbEvent.runMigration, ?_, ?_, ?_⟩
    · simp [configure_database, List.append_assoc]
    · simp
    · intro v hv
      simp only [configure_database, List.mem_append, List.mem_singleton,
        List.mem_cons] at hv
      simp only [List.mem_append, List.mem_cons]
      rcases hv with ((h | h | h | h) | h) | h <;> simp_all

/-! ## Claim C5 -/

/-- C5: every GET /health_check request is answered 200 with an empty body
(Content-Length 0), for every pool state and every database state,
including the state before any subscription was ever created, and it
leaves the database untouched. -/
theorem health_check_route_ok (body : String) (pool : PoolState)
    (db : DbState) :
    (route "GET" "/health_check" body pool db).1.status = 200 ∧
    (route "GET" "/health_check" body pool db).1.body.length = 0 ∧
    (route "GET" "/health_check" body pool db).2 = db :=
  ⟨rfl, rfl, rfl⟩

/-! ## Claim C7 -/

/-- C7 counterexample: the subscribe handler does not receive the
connection pool as an argument — its parameter list, transcribed from
src/src/routes/subscriptions.rs, holds only the form extractor. -/
theorem subscribe_takes_no_pool_argument :
    ¬ HandlerParam.poolExtractor ∈ subscribeParams := by decide

/-- C7 (amended): the connection pool is a dependency of the bootstrap —
run receives it at both call sites — but the POST /subscriptions handler
itself takes only the form extractor, not the pool, and it does not write
the Subscriber record. -/
theorem pool_wired_into_bootstrap_not_handler :
    RunArg.pool ∈ runArgs ∧
    HandlerParam.poolExtractor ∉ subscribeParams ∧
    HandlerParam.formExtractor ∈ subscribeParams ∧
    ∀ (f : FormData) (db : DbState), (subscribe f db).2 = db :=
  ⟨by decide, by decide, by decide, fun _ _ => rfl⟩

/-! ## Claim C9 -/

lemma runTracingInits_ready (n : Nat) (s : TracingState)
    (h : s.ready = true) : runTracingInits n s = s := by
  induction n with
  | zero => rfl
  | succ m ih => simp [runTracingInits, tracingInit, h, ih]

/-- C9: across any number of serialized passes through the guarded
initializer (the serialization every atomic check-and-set imposes on its
concurrent callers), the setup block runs exactly once: after n ≥ 1 calls
from the uninitialized state the cell is set and setupRuns is 1, and a
caller that finds the cell set performs no work. -/
theorem tracing_setup_runs_exactly_once (n : Nat) (h : 1 ≤ n) :
    runTracingInits n ⟨false, 0⟩ = ⟨true, 1⟩ ∧
    ∀ s : TracingState, s.ready = true → tracingInit s = s := by
  constructor
  · obtain ⟨m, rfl⟩ : ∃ m, n = m + 1 := ⟨n - 1, by omega⟩
    show runTracingInits m (tracingInit ⟨false, 0⟩) = ⟨true, 1⟩
    exact runTracingInits_ready m _ rfl
  · intro s hs
    simp [tracingInit, hs]

/-- Witness for C9 at three callers. -/
theorem tracing_setup_runs_exactly_once_witness :
    1 ≤ 3 ∧
    (runTracingInits 3 ⟨false, 0⟩ = ⟨true, 1⟩ ∧
      ∀ s : TracingState, s.ready = true → tracingInit s = s) :=
  ⟨by decide, tracing_setup_runs_exactly_once 3 (by decide)⟩

/-! ## Claim C10 -/

/-- C10: a body in which name and email are present with empty string
values parses to the empty-string form (the handler validates presence,
not contents), POST /subscriptions answers 200, and the database state is
unchanged. -/
theorem empty_field_values_accepted (db : DbState) :
    parseFormData "name=&email=" = some ⟨"", ""⟩ ∧
    (handlePostSubscriptions "name=&email=" db).1.status = 200 ∧
    (handlePostSubscriptions "name=&email=" db).2 = db := by
  have h : parseFormData "name=&email=" = some ⟨"", ""⟩ := by decide
  exact ⟨h, by simp [handlePostSubscriptions, h, subscribe],
    by simp [handlePostSubscriptions, h, subscribe]⟩

end Zero2Prod

namespace Zero2Prod

/-! ## Claim C3 -/

/-- C3: for every form-encoded body in which both required fields are
present and well-formed (extraction succeeds), POST /subscriptions answers
200 and performs no persistence: the database state after the request is
the state before it. -/
theorem valid_form_200_no_persistence (body : String) (db : DbState)
    (f : FormData) (h : parseFormData body = some f) :
    (handlePostSubscriptions body db).1.status = 200 ∧
    (handlePostSubscriptions body db).2 = db := by
  simp [handlePostSubscriptions, h, subscribe]

/-- Witness for C3 at the concrete body of the 200 test. -/
theorem valid_form_200_no_persistence_witness :
    parseFormData "name=le%20guin&email=ursula_le_guin%40gmail.com" =
      some ⟨"le guin", "ursula_le_guin@gmail.com"⟩ ∧
    (handlePostSubscriptions "name=le%20guin&email=ursula_le_guin%40gmail.com"
        ⟨[]⟩).1.status = 200 ∧
    (handlePostSubscriptions "name=le%20guin&email=ursula_le_guin%40gmail.com"
        ⟨[]⟩).2 = ⟨[]⟩ :=
  ⟨by decide,
    valid_form_200_no_persistence
      "name=le%20guin&email=ursula_le_guin%40gmail.com" ⟨[]⟩
      ⟨"le guin", "ursula_le_guin@gmail.com"⟩ (by decide)⟩

/-! ## Claim C4 -/

/-- C4: for every body from which the name field, the email field, or both
are missing (the empty body included), POST /subscriptions answers 400 and
leaves the database unchanged: the validation error is recovered at the
handler boundary as a response and does not propagate. -/
theorem missing_field_400 (body : String) (db : DbState)
    (h : hasField body "name" = false ∨ hasField body "email" = false) :
    (handlePostSubscriptions body db).1.status = 400 ∧
    (handlePostSubscriptions body db).2 = db := by
  have hnone : parseFormData body = none := by
    unfold parseFormData
    cases hp : parsePairs body.data with
    | none => rfl
    | some pairs =>
      simp only [hasField, hp] at h
      rcases h with h | h
      · have hf : fieldOnce pairs "name" = none := by
          have hfil : pairs.filter (fun p => p.1 == "name") = [] :=
            List.filter_eq_nil_iff.2 (List.any_eq_false.mp h)
          simp [fieldOnce, hfil]
        simp [hf]
      · have hf : fieldOnce pairs "email" = none := by
          have hfil : pairs.filter (fun p => p.1 == "email") = [] :=
            List.filter_eq_nil_iff.2 (List.any_eq_false.mp h)
          simp [fieldOnce, hfil]
        rcases hn : fieldOnce pairs "name" with _ | n <;> simp [hf, hn]
  simp [handlePostSubscriptions, hnone]

/-- Witness for C4 at the empty body (both fields missing). -/
theorem missing_field_400_witness :
    (hasField "" "name" = false ∨ hasField "" "email" = false) ∧
    (handlePostSubscriptions "" ⟨[]⟩).1.status = 400 ∧
    (handlePostSubscriptions "" ⟨[]⟩).2 = ⟨[]⟩ :=
  ⟨Or.inl (by decide), missing_field_400 "" ⟨[]⟩ (Or.inl (by decide))⟩

end Zero2Prod

namespace Zero2Prod

/-! ## Claim C1 -/

/-- C1 counterexample: a concrete failing run of health_check_works — the
server answered 500, so the first assertion panics — reaches neither the
pool close nor the database-drop statement: teardown is not attempted
after a failing test, because clean_up is called after the assertions. -/
theorem no_teardown_when_assertions_fail :
    DbEvent.poolClose ∉
      health_check_works sampleSetting
        "6e29cfe2-83af-4cf7-9b9f-5ff6c1f8f2d4" [20220101] 40000
        ⟨500, some 0⟩ ∧
    DbEvent.execStmt (dropDbStmt "6e29cfe2-83af-4cf7-9b9f-5ff6c1f8f2d4") ∉
      health_check_works sampleSetting
        "6e29cfe2-83af-4cf7-9b9f-5ff6c1f8f2d4" [20220101] 40000
        ⟨500, some 0⟩ := by
  decide

/-- C1 (amended): after the test body finishes with all assertions passing,
teardown is attempted: the trace ends with the pool being closed first and
then, over a fresh connection built from the default-database connection
string, the database-drop statement for that run's database_name; no pool
close happens earlier. When an assertion fails the body panics first and
teardown is not reached. -/
theorem teardown_after_passing_assertions (base : Setting) (fresh : String)
    (migs : List Nat) (port : Nat) (resp : ClientResponse)
    (hs : statusIsSuccess resp.status = true)
    (hl : resp.content_length = some 0) :
    ∃ pre,
      health_check_works base fresh migs port resp =
        pre ++
          [DbEvent.poolClose,
           DbEvent.connect (get_connection_string_default_db
             (spawn_app base fresh migs port).2.db_config),
           DbEvent.execStmt (dropDbStmt fresh)] ∧
      pre = (spawn_app base fresh migs port).1 ∧
      DbEvent.poolClose ∉ pre := by
  refine ⟨(spawn_app base fresh migs port).1, ?_, rfl, ?_⟩
  · unfold health_check_works
    simp only [hs, hl]
    simp [clean_up, spawn_app, configure_database]
  · simp [spawn_app, configure_database]

/-- Witness for C1 (amended) at a concrete passing response. -/
theorem teardown_after_passing_assertions_witness :
    statusIsSuccess 200 = true ∧
    (ClientResponse.mk 200 (some 0)).content_length = some 0 ∧
    (∃ pre,
      health_check_works sampleSetting "db-a" [] 1 ⟨200, some 0⟩ =
        pre ++
          [DbEvent.poolClose,
           DbEvent.connect (get_connection_string_default_db
             (spawn_app sampleSetting "db-a" [] 1).2.db_config),
           DbEvent.execStmt (dropDbStmt "db-a")] ∧
      pre = (spawn_app sampleSetting "db-a" [] 1).1 ∧
      DbEvent.poolClose ∉ pre) :=
  ⟨by decide, rfl,
    teardown_after_passing_assertions sampleSetting "db-a" [] 1 ⟨200, some 0⟩
      (by decide) rfl⟩

/-! ## Claim C8 -/

/-- C8: each test run provisions under exactly the freshly generated token:
spawn_app stores the token as the database_name of its TestApp, the only
database-creation statement its provisioning trace executes names the
token, and two runs whose tokens differ (what collision-resistant UUID
generation provides) create databases with distinct names and distinct
creation statements. -/
theorem distinct_databases_per_test (base1 base2 : Setting) (f1 f2 : String)
    (m1 m2 : List Nat) (p1 p2 : Nat) (h : f1 ≠ f2) :
    (spawn_app base1 f1 m1 p1).2.db_config.database_name = f1 ∧
    stmtsExecuted (spawn_app base1 f1 m1 p1).1 = [createDbStmt f1] ∧
    stmtsExecuted (spawn_app base2 f2 m2 p2).1 = [createDbStmt f2] ∧
    createDbStmt f1 ≠ createDbStmt f2 ∧
    (spawn_app base1 f1 m1 p1).2.db_config.database_name ≠
      (spawn_app base2 f2 m2 p2).2.db_config.database_name := by
  refine ⟨rfl, ?_, ?_, ?_, ?_⟩
  · simp [spawn_app, configure_database, stmtsExecuted,
      List.filterMap_append, List.filterMap_cons, stmtOf,
      stmtsExecuted_migrations]
  · simp [spawn_app, configure_database, stmtsExecuted,
      List.filterMap_append, List.filterMap_cons, stmtOf,
      stmtsExecuted_migrations]
  · exact fun hc => h (createDbStmt_inj f1 f2 hc)
  · exact h

/-- Witness for C8 at two distinct tokens. -/
theorem distinct_databases_per_test_witness :
    ("db-a" : String) ≠ "db-b" ∧
    ((spawn_app sampleSetting "db-a" [] 1).2.db_config.database_name =
        "db-a" ∧
      stmtsExecuted (spawn_app sampleSetting "db-a" [] 1).1 =
        [createDbStmt "db-a"] ∧
      stmtsExecuted (spawn_app sampleSetting "db-b" [] 2).1 =
        [createDbStmt "db-b"] ∧
      createDbStmt "db-a" ≠ createDbStmt "db-b" ∧
      (spawn_app sampleSetting "db-a" [] 1).2.db_config.database_name ≠
        (spawn_app sampleSetting "db-b" [] 2).2.db_config.database_name) :=
  ⟨by decide,
    distinct_databases_per_test sampleSetting sampleSetting "db-a" "db-b"
      [] [] 1 2 (by decide)⟩

end Zero2Prod
